import Mathlib

/-!
Shallow embedding of the agentic run-orchestration loop
(src/agentic/agent.py, brain.py, memory.py, hitl.py, policy/policy.py).

Python dictionaries are modelled as structures whose optional keys are
`Option` fields; Python truthiness of the relevant values is modelled by
explicit `pyTruthy*` helpers; code that can raise an uncaught exception is
modelled in `Except Unit`.
-/

namespace Agentic

/-- ASCII model of Python str.lower(). -/
def strLower (s : String) : String :=
  String.mk (s.data.map Char.toLower)

/-- Model of the Python substring test `needle in hay`. -/
def strContains (hay needle : String) : Bool :=
  (List.range (hay.data.length + 1)).any fun i =>
    needle.data == (hay.data.drop i).take needle.data.length

/-- Model of Python `a or b` on optional strings: an absent or empty string
falls through to the second operand. -/
def pyOrStr (a b : Option String) : Option String :=
  match a with
  | some s => if s = "" then b else some s
  | none => b

/-- Python truthiness of an optional string value: present and non-empty. -/
def pyTruthyStr (o : Option String) : Bool :=
  match o with
  | some s => s != ""
  | none => false

/-- A JSON value stored under an estimated-risk-score key: either a number or
a non-numeric value whose comparison against an integer raises TypeError. -/
inductive RiskVal where
  | num (n : Int)
  | nonNum (s : String)
deriving DecidableEq

/-- Model of the Python expression `plan.get("estimated_risk_score", 0) > threshold`:
an absent key reads as 0; comparing a non-numeric value raises (modelled as error). -/
def pyGetRiskGt (risk : Option RiskVal) (threshold : Int) : Except Unit Bool :=
  match risk with
  | none => Except.ok (decide ((0 : Int) > threshold))
  | some (RiskVal.num n) => Except.ok (decide (n > threshold))
  | some (RiskVal.nonNum _) => Except.error ()

/-- A Detection dict as produced by Reasoner.detect_issues; all keys are
collaborator-assigned and may be absent. The key "issue" is also read by the
memory query methods. -/
structure Detection where
  issue_id : Option String := none
  score : Option Int := none
  classification : Option String := none
  location : Option String := none
  description : Option String := none
  issue : Option String := none
deriving DecidableEq

/-- A Decision dict as built by PolicyEvaluator.apply (policy.py lines 5-15). -/
structure Decision where
  summary : String
  location : Option String
  score : Int
  detection : Detection
deriving DecidableEq

/-- PolicyEvaluator (policy.py): the constructor default for hitl_threshold is 70. -/
structure PolicyEvaluator where
  hitl_threshold : Int := 70
deriving DecidableEq

/-- PolicyEvaluator.apply (policy.py lines 5-15): the loop
`for d in detections: decisions.append({...})`; the state argument is unused. -/
def PolicyEvaluator.apply (_pe : PolicyEvaluator) (detections : List Detection)
    (_state : Unit) : List Decision :=
  detections.foldl
    (fun decisions d =>
      decisions ++ [{ summary := d.description.getD "Auto action"
                      location := d.location
                      score := d.score.getD 50
                      detection := d }]) []

/-- A Risk entry of a plan. -/
structure Risk where
  id : String
  desc : String
  score : Int
deriving DecidableEq

/-- One step of a plan, as parsed from collaborator JSON (keys may be absent). -/
structure Step where
  step_id : Option String := none
  type : Option String := none
  description : Option String := none
  refactored_code : Option String := none
deriving DecidableEq

/-- One file change entry `{path, patch}`. -/
structure FileEntry where
  path : String
  patch : String
deriving DecidableEq

/-- A Plan dict as built by Planner.generate (brain.py): both the LLM branch and
the fallback branch set every one of these keys, so none is optional except the
risk score value itself, which is kept as a raw JSON value. -/
structure Plan where
  plan_id : String
  goal : String
  estimated_time_minutes : Int
  steps : List Step
  risks : List Risk
  estimated_risk_score : Option RiskVal
  policy_gate : String
  files : List (List FileEntry)
  memory_context : Bool
  explanation : String
deriving DecidableEq

/-- The parsed JSON of a well-formed plan-generation response (keys may be absent;
brain.py reads them with .get and defaults). -/
structure PlanJson where
  steps : List Step := []
  estimated_time_minutes : Option Int := none
  risks : List Risk := []
  estimated_risk_score : Option RiskVal := none
deriving DecidableEq

/-- Outcome of the plan-generation collaborator call: either parsed plan JSON, or
a failure (network error or unparseable output; brain.py lines 105-108 catch both
json.JSONDecodeError and Exception). -/
inductive LlmOutcome where
  | ok (plan_json : PlanJson)
  | failed
deriving DecidableEq

/-- The hard-coded fallback refactored code string (brain.py lines 111-121). -/
def fallbackRefactoredCode : String :=
  "\x27\x27\x27Improved module with error handling.\x27\x27\x27\n\nclass Serializer:\n    def serialize(self, data):\n        if data is None:\n            return None\n        try:\n            return \x7b\"status\": \"ok\", \"data\": data\x7d\n        except Exception as e:\n            raise ValueError(f\"Serialization failed: \x7be\x7d\")\n"

/-- The file-collection loop of the LLM branch (brain.py lines 80-84): collect a
`{path, patch}` entry for every step whose type is "code_change" and whose
refactored_code is truthy. -/
def stepFiles (location : String) (steps : List Step) : List FileEntry :=
  steps.foldl
    (fun files step =>
      if step.type == some "code_change" && pyTruthyStr step.refactored_code then
        files ++ [{ path := if location = "" then "refactored_code.py"
                            else (location.splitOn ":").headD ""
                    patch := step.refactored_code.getD "" }]
      else files) []

/-- Planner.generate (brain.py lines 20-135). The LLM client being absent is
`llm = none`; a failing or unparseable generation call is `some LlmOutcome.failed`;
both reach the fallback branch at line 110. The memory-augmentation block is
abstracted to whether it is non-empty (memory_context), which is all that the
produced plan depends on; plan_id abstracts the generated uuid. -/
def Planner.generate (llm : Option LlmOutcome) (memory_context : Bool)
    (plan_id : String) (decision : Decision) : Plan :=
  let goal := decision.summary
  let location := decision.location.getD ""
  match llm with
  | some (LlmOutcome.ok plan_json) =>
      let files := stepFiles location plan_json.steps
      let step_descs := plan_json.steps.map (fun s => s.description.getD "")
      { plan_id := plan_id
        goal := goal
        estimated_time_minutes := plan_json.estimated_time_minutes.getD 20
        steps := plan_json.steps
        risks := plan_json.risks
        estimated_risk_score := some (plan_json.estimated_risk_score.getD (RiskVal.num 30))
        policy_gate := "HITL_if_risk>70"
        files := if files.isEmpty then [] else [files]
        memory_context := memory_context
        explanation :=
          "Planned changes for: " ++ goal ++ ". Steps: " ++
            String.intercalate "; " (step_descs.filter (fun d => d != "")) ++
            (if memory_context then " [Using learned patterns]" else "") }
  | _ =>
      { plan_id := plan_id
        goal := goal
        estimated_time_minutes := 20
        steps := [{ step_id := some "s1", type := some "code_change"
                    description := some "Apply improvements"
                    refactored_code := some fallbackRefactoredCode }]
        risks := [{ id := "r1", desc := "compatibility risk", score := 30 }]
        estimated_risk_score := some (RiskVal.num 30)
        policy_gate := "HITL_if_risk>70"
        files := [[{ path := if location = "" then "improved.py"
                             else (location.splitOn ":").headD ""
                     patch := fallbackRefactoredCode }]]
        memory_context := memory_context
        explanation := "Improve: " ++ goal }

/-- The dict returned by ApprovalsService.request (hitl.py): the granted key is
always present, the reason key only on denial. -/
structure ApprovalResult where
  granted : Bool
  reason : Option String := none
deriving DecidableEq

/-- Number of keys in the returned approval dict. -/
def ApprovalResult.numKeys (a : ApprovalResult) : Nat :=
  1 + (match a.reason with | some _ => 1 | none => 0)

/-- Python truthiness of the approval dict: a dict is truthy iff it has at least
one key; request always returns a dict containing the granted key. -/
def ApprovalResult.pyTruthy (a : ApprovalResult) : Bool :=
  a.numKeys != 0

/-- ApprovalsService.request (hitl.py lines 5-9): no try/except here, so a
non-numeric risk value propagates the comparison error. -/
def ApprovalsService.request (plan : Plan) : Except Unit ApprovalResult :=
  match pyGetRiskGt plan.estimated_risk_score 70 with
  | Except.error _ => Except.error ()
  | Except.ok b =>
      if b then Except.ok { granted := false, reason := some "requires_manual_review" }
      else Except.ok { granted := true }

/-- ApprovalsService.request_approval (hitl.py lines 12-13): alias for request. -/
def ApprovalsService.request_approval (plan : Plan) : Except Unit ApprovalResult :=
  ApprovalsService.request plan

/-- PolicyEvaluator.requires_hitl (policy.py lines 17-22): the comparison is
wrapped in try/except with except returning True (fail safe). -/
def PolicyEvaluator.requires_hitl (pe : PolicyEvaluator) (plan : Plan) : Bool :=
  match pyGetRiskGt plan.estimated_risk_score pe.hitl_threshold with
  | Except.ok b => b
  | Except.error _ => true

/-- The dict returned by the change-submission collaborator create_pr. -/
structure PRInfo where
  status : Option String := none
  pr_number : Option Int := none
  url : Option String := none
deriving DecidableEq

/-- The validation dict built at agent.py line 118. -/
structure Validation where
  passed : Bool
deriving DecidableEq

/-- A Run Record as appended by Agent.run_once (agent.py lines 131-140), keeping
the fields that the memory query methods and the claims read; the state, insights
and timestamp payload fields are never inspected by any query and are omitted. -/
structure RunRecord where
  run_id : String
  detection : Detection
  plan : Option Plan := none
  pr : PRInfo := {}
  validation : Option Validation := none
deriving DecidableEq

/-- The string the memory queries match against (memory.py line 46):
`(detection.get("issue") or detection.get("description") or "").lower()`. -/
def issue_desc (d : Detection) : String :=
  strLower ((pyOrStr d.issue d.description).getD "")

/-- EpisodicStore.append (memory.py lines 26-29): appends to the end of the
in-memory list (the synchronous persist has no observable effect on queries). -/
def EpisodicStore.append (runs : List RunRecord) (run_data : RunRecord) : List RunRecord :=
  runs ++ [run_data]

/-- EpisodicStore.get_runs_by_issue (memory.py lines 41-49): the loop
`for run in self.runs: if issue_substring.lower() in issue_desc: matching.append(run)`. -/
def EpisodicStore.get_runs_by_issue (runs : List RunRecord) (issue_substring : String) :
    List RunRecord :=
  runs.foldl
    (fun matching run =>
      if strContains (issue_desc run.detection) (strLower issue_substring) then
        matching ++ [run]
      else matching) []

/-- The success test of memory.py line 54: `r.get("pr", {}).get("status") in ["success", "ok"]`. -/
def successStatus (r : RunRecord) : Bool :=
  r.pr.status == some "success" || r.pr.status == some "ok"

/-- EpisodicStore.get_successful_runs (memory.py lines 51-54). -/
def EpisodicStore.get_successful_runs (runs : List RunRecord) (issue_substring : String) :
    List RunRecord :=
  (EpisodicStore.get_runs_by_issue runs issue_substring).filter successStatus

/-- EpisodicStore.get_successful_fixes_for_learning (memory.py lines 61-64):
`list(reversed(successful))[:limit]`. -/
def EpisodicStore.get_successful_fixes_for_learning (runs : List RunRecord)
    (issue_substring : String) (limit : Nat) : List RunRecord :=
  ((EpisodicStore.get_successful_runs runs issue_substring).reverse).take limit

/-- The most_recent_fix summary dict of memory.py lines 87-90. -/
structure FixSummary where
  file_path : Option String
  code_snippet : String
deriving DecidableEq

/-- The stats dict of memory.py lines 71-76. -/
structure IssueStats where
  total_occurrences : Nat
  successful_fixes : Nat
  success_rate : Rat
  most_recent_fix : Option FixSummary
deriving DecidableEq

/-- Model of Python integer division `a / b` on lengths: raises ZeroDivisionError
when b = 0, modelled as an error. -/
def pyDiv (a b : Nat) : Except Unit Rat :=
  if b = 0 then Except.error () else Except.ok ((a : Rat) / (b : Rat))

/-- The most_recent_fix extraction of memory.py lines 78-90: take the last
successful run, require a truthy plan with truthy files, unwrap the nested
list-of-list (an empty inner list degrades to an empty dict). -/
def mostRecentFixOf (successful_runs : List RunRecord) : Option FixSummary :=
  match successful_runs.getLast? with
  | none => none
  | some latest =>
      match latest.plan with
      | none => none
      | some p =>
          match p.files with
          | [] => none
          | file_entry0 :: _ =>
              match file_entry0 with
              | [] => some { file_path := none, code_snippet := "" }
              | fe :: _ => some { file_path := some fe.path, code_snippet := fe.patch.take 500 }

/-- EpisodicStore.get_issue_statistics (memory.py lines 66-92): the success rate
is `len(successful) / len(all_runs) if all_runs else 0` (the division is only
evaluated when the matching list is non-empty). -/
def EpisodicStore.get_issue_statistics (runs : List RunRecord) (issue_substring : String) :
    Except Unit IssueStats :=
  let all_runs := EpisodicStore.get_runs_by_issue runs issue_substring
  let successful_runs := EpisodicStore.get_successful_runs runs issue_substring
  match (if all_runs.isEmpty then Except.ok 0 else pyDiv successful_runs.length all_runs.length : Except Unit Rat) with
  | Except.error e => Except.error e
  | Except.ok rate =>
      Except.ok { total_occurrences := all_runs.length
                  successful_fixes := successful_runs.length
                  success_rate := rate
                  most_recent_fix := mostRecentFixOf successful_runs }

/-- Terminal status tags returned by Agent.run_once. -/
inductive RunStatus where
  | rejected_by_hitl
  | completed
deriving DecidableEq

/-- Observable outcome of one Agent.run_once call: its terminal status, the
result of the approval-gate call when one happened, the number of create_pr
calls, the records appended to the episodic store, and the validation dict. -/
structure RunOnceOutcome where
  result_status : RunStatus
  approval_called : Option ApprovalResult
  submissions : Nat
  appended : List RunRecord
  validation : Option Validation
deriving DecidableEq

/-- The submission tail of Agent.run_once (agent.py lines 103-147): one create_pr
call, validation = (status == "ok"), one episodic append. -/
def Agent.submitAndRecord (run_id : String) (det : Detection) (plan : Plan)
    (pr_info : PRInfo) (approval_called : Option ApprovalResult) : RunOnceOutcome :=
  let validation : Validation := { passed := pr_info.status == some "ok" }
  { result_status := RunStatus.completed
    approval_called := approval_called
    submissions := 1
    appended := [{ run_id := run_id
                   detection := det
                   plan := some plan
                   pr := pr_info
                   validation := some validation }]
    validation := some validation }

/-- Agent.run_once (agent.py lines 71-147). The external collaborator results are
parameters: detection (none models a falsy detection, which makes line 83 bind
decision = None and line 87 then raise), the plan-generation outcome, and the
create_pr result. Line 98 checks `plan.get("estimated_risk_score", 0) > 70`
(hard-coded 70); on a truthy risk it binds
`approved = self.hitl.request_approval(plan)` - a dict - and line 100 tests
`if not approved:`, i.e. the Python truthiness of that dict. -/
def Agent.run_once (pe : PolicyEvaluator) (run_id : String)
    (detection : Option Detection) (llm : Option LlmOutcome) (memory_context : Bool)
    (plan_id : String) (pr_info : PRInfo) : Except Unit RunOnceOutcome :=
  match detection with
  | none => Except.error ()
  | some det =>
      match pe.apply [det] () with
      | [] => Except.error ()
      | decision :: _ =>
          let plan := Planner.generate llm memory_context plan_id decision
          match pyGetRiskGt plan.estimated_risk_score 70 with
          | Except.error _ => Except.error ()
          | Except.ok risky =>
              if risky then
                match ApprovalsService.request_approval plan with
                | Except.error _ => Except.error ()
                | Except.ok approved =>
                    if approved.pyTruthy = false then
                      Except.ok { result_status := RunStatus.rejected_by_hitl
                                  approval_called := some approved
                                  submissions := 0
                                  appended := []
                                  validation := none }
                    else
                      Except.ok (Agent.submitAndRecord run_id det plan pr_info (some approved))
              else
                Except.ok (Agent.submitAndRecord run_id det plan pr_info none)

/-- The scheduler state an Agent carries: the run counter and whether the
background scheduler object is running. -/
structure SchedState where
  run_count : Nat
  running : Bool
deriving DecidableEq

/-- Python truthiness of the optional max_runs integer: `if max_runs and ...`. -/
def pyTruthyNat (m : Option Nat) : Bool :=
  match m with
  | some n => n != 0
  | none => false

/-- Agent.stop_loop (agent.py lines 220-224): shuts the scheduler down only if
one is running. -/
def Agent.stop_loop (st : SchedState) : SchedState :=
  if st.running then { st with running := false } else st

/-- Agent._scheduled_run (agent.py lines 198-218): increments the counter, runs
run_once inside try/except (the run outcome does not affect scheduler state),
then calls stop_loop only when its max_runs ARGUMENT is truthy and the counter
has reached it. -/
def Agent.scheduled_run (max_runs : Option Nat) (st : SchedState) : SchedState :=
  let st1 : SchedState := { st with run_count := st.run_count + 1 }
  if pyTruthyNat max_runs && decide (st1.run_count ≥ max_runs.getD 0) then
    Agent.stop_loop st1
  else st1

/-- The start of Agent.start_loop (agent.py lines 169-188): the scheduler is
created and started, and the immediate first run is executed with the given
max_runs keyword argument. The interval job is registered at line 176 as
`add_job(self._scheduled_run, IntervalTrigger(...))` with NO argument list, so
every interval fire calls _scheduled_run with its default max_runs=None. -/
def Agent.start_loop_first (max_runs : Option Nat) : SchedState :=
  Agent.scheduled_run max_runs { run_count := 0, running := true }

/-- One interval fire of the registered job: fires only while the scheduler is
running, and invokes _scheduled_run with no arguments (max_runs = none). -/
def Agent.interval_fire (st : SchedState) : SchedState :=
  if st.running then Agent.scheduled_run none st else st

/-- Scheduler state after start_loop (immediate first run) followed by the given
number of interval fires. -/
def Agent.schedulerAfter (max_runs : Option Nat) (fires : Nat) : SchedState :=
  match fires with
  | 0 => Agent.start_loop_first max_runs
  | n + 1 => Agent.interval_fire (Agent.schedulerAfter max_runs n)

/-! Concrete fixtures used in closed counterexamples and witnesses. -/

/-- A concrete detection as in the spec scenario (score 85, null pointer). -/
def detNullPtr : Detection :=
  { score := some 85, classification := some "bug"
    location := some "f.py", description := some "null pointer" }

/-- A parsed plan JSON carrying estimated_risk_score 90. -/
def pjRisk90 : PlanJson :=
  { estimated_risk_score := some (RiskVal.num 90) }

/-- A create_pr result with status ok. -/
def prOk : PRInfo :=
  { status := some "ok" }

/-- A concrete plan whose risk score is the number 90. -/
def planRisk90 : Plan :=
  Planner.generate (some (LlmOutcome.ok pjRisk90)) false "p1"
    { summary := "null pointer", location := some "f.py", score := 85, detection := detNullPtr }

/-- A concrete plan carrying no estimated_risk_score key at all. -/
def planNoScore : Plan :=
  { plan_id := "p2", goal := "g", estimated_time_minutes := 20, steps := []
    risks := [], estimated_risk_score := none, policy_gate := "HITL_if_risk>70"
    files := [], memory_context := false, explanation := "" }

/-- Stored run record A: matches substring "issue", submission status "success". -/
def recA : RunRecord :=
  { run_id := "A", detection := { issue := some "demo issue A" }
    pr := { status := some "success" } }

/-- Stored run record B: matches substring "issue", submission status "ok". -/
def recB : RunRecord :=
  { run_id := "B", detection := { issue := some "demo issue B" }
    pr := { status := some "ok" } }

/-- Stored run record C: matches substring "issue", submission status "success". -/
def recC : RunRecord :=
  { run_id := "C", detection := { issue := some "demo issue C" }
    pr := { status := some "success" } }

/-- A concrete decision with summary "Issue A". -/
def decisionA : Decision :=
  { summary := "Issue A", location := none, score := 50, detection := {} }

/-- A concrete decision with summary "Issue B". -/
def decisionB : Decision :=
  { summary := "Issue B", location := none, score := 50, detection := {} }

/-- The Decision dict literal appended by PolicyEvaluator.apply for one Detection. -/
def mkDecision (d : Detection) : Decision :=
  { summary := d.description.getD "Auto action"
    location := d.location
    score := d.score.getD 50
    detection := d }

/-- The outcome of a concrete fallback-plan run that reaches submission. -/
def c5Out : RunOnceOutcome :=
  Agent.submitAndRecord "w5" detNullPtr
    (Planner.generate none false "p5" (mkDecision detNullPtr)) prOk none

/-! Helper lemmas. -/

/-- An append-accumulating fold is a map. -/
theorem foldl_snoc_map {α β : Type} (f : α → β) (l : List α) (acc : List β) :
    List.foldl (fun m r => m ++ [f r]) acc l = acc ++ l.map f := by
  induction l generalizing acc with
  | nil => simp
  | cons x xs ih => simp [List.foldl, ih]

/-- A conditionally append-accumulating fold is a filter. -/
theorem foldl_snoc_filter {α : Type} (p : α → Bool) (l acc : List α) :
    List.foldl (fun m r => if p r then m ++ [r] else m) acc l = acc ++ l.filter p := by
  induction l generalizing acc with
  | nil => simp
  | cons x xs ih => cases hp : p x <;> simp [List.foldl, hp, ih, List.filter_cons]

/-- strContains is exactly substring occurrence. -/
theorem strContains_iff (hay needle : String) :
    strContains hay needle = true ↔ ∃ p q, hay.data = p ++ needle.data ++ q := by
  unfold strContains
  rw [List.any_eq_true]
  constructor
  · rintro ⟨i, _, hpref⟩
    have heq : needle.data = (hay.data.drop i).take needle.data.length := eq_of_beq hpref
    have hsplit : hay.data.drop i
        = needle.data ++ (hay.data.drop i).drop needle.data.length := by
      conv_lhs => rw [← List.take_append_drop needle.data.length (hay.data.drop i)]
      rw [← heq]
    refine ⟨hay.data.take i, (hay.data.drop i).drop needle.data.length, ?_⟩
    calc hay.data = hay.data.take i ++ hay.data.drop i := (List.take_append_drop i hay.data).symm
      _ = hay.data.take i ++ (needle.data ++ (hay.data.drop i).drop needle.data.length) := by
            rw [← hsplit]
      _ = hay.data.take i ++ needle.data ++ (hay.data.drop i).drop needle.data.length := by
            rw [List.append_assoc]
  · rintro ⟨p, q, hpq⟩
    have hlen : p.length ≤ hay.data.length := by
      rw [hpq]; simp
    refine ⟨p.length, List.mem_range.2 (by omega), ?_⟩
    have h1 : hay.data.drop p.length = needle.data ++ q := by
      rw [hpq, List.append_assoc]; exact List.drop_left p (needle.data ++ q)
    rw [h1, List.take_left]
    simp

/-- The empty needle occurs in every string (Python: an empty substring is in
every string). -/
theorem strContains_empty (hay : String) : strContains hay "" = true := by
  rw [strContains_iff]
  exact ⟨[], hay.data, rfl⟩

/-- The matching loop of get_runs_by_issue is a filter over the stored runs. -/
theorem get_runs_by_issue_eq_filter (runs : List RunRecord) (s : String) :
    EpisodicStore.get_runs_by_issue runs s
      = runs.filter (fun r => strContains (issue_desc r.detection) (strLower s)) := by
  unfold EpisodicStore.get_runs_by_issue
  simpa using foldl_snoc_filter (fun r => strContains (issue_desc r.detection) (strLower s)) runs []

/-! Claim theorems. -/

/-- Claim C1 (code-bug evidence): on a plan with estimated_risk_score 90 and
threshold 70, the Approval Gate is invoked and denies (granted = false), yet
run_once terminates completed with one change submission and one store append,
because line 100 of agent.py tests the Python truthiness of the returned
approval dict, which is always truthy; the rejected_by_hitl return is never
reached on this input, contradicting the claimed rejected terminal outcome with
no submission and no store record. -/
theorem c1_gate_denies_yet_run_once_submits_and_appends :
    (Agent.run_once {} "r1" (some detNullPtr) (some (LlmOutcome.ok pjRisk90)) false "p1"
        prOk).toOption.map
        (fun o => (o.result_status, o.approval_called, o.submissions, o.appended.length))
      = some (RunStatus.completed,
              some { granted := false, reason := some "requires_manual_review" }, 1, 1) := by
  rfl

/-- Claim C2 (code-bug evidence): started with maxRuns = 3, after the immediate
first run and two interval fires the counter is 3 yet the scheduler is still
running (stop_loop was never called, because the interval job invokes
_scheduled_run with max_runs defaulted to None), and a third interval fire
executes a 4th run - contradicting the claim that exactly 3 runs occur and the
scheduler then stops. -/
theorem c2_scheduler_fires_a_fourth_run :
    Agent.schedulerAfter (some 3) 2 = { run_count := 3, running := true } ∧
    Agent.schedulerAfter (some 3) 3 = { run_count := 4, running := true } :=
  ⟨rfl, rfl⟩

/-- Claim C3: for every threshold T and plan with a numeric risk score n,
requires_hitl returns exactly the comparison n > T; a non-numeric score makes
the comparison raise and requires_hitl fail safe to true; the constructor
default threshold is 70. -/
theorem c3_requires_hitl_iff_risk_gt_threshold (T : Int) (plan : Plan) :
    (∀ n : Int, plan.estimated_risk_score = some (RiskVal.num n) →
       PolicyEvaluator.requires_hitl { hitl_threshold := T } plan = decide (n > T)) ∧
    (∀ s : String, plan.estimated_risk_score = some (RiskVal.nonNum s) →
       PolicyEvaluator.requires_hitl { hitl_threshold := T } plan = true) ∧
    ({} : PolicyEvaluator).hitl_threshold = 70 := by
  refine ⟨fun n h => ?_, fun s h => ?_, rfl⟩ <;>
    simp [PolicyEvaluator.requires_hitl, pyGetRiskGt, h]

/-- Witness for C3 at the concrete plan with risk score 90 and threshold 70. -/
theorem c3_witness :
    PolicyEvaluator.requires_hitl { hitl_threshold := 70 } planRisk90
      = decide ((90 : Int) > 70) :=
  (c3_requires_hitl_iff_risk_gt_threshold 70 planRisk90).1 90 rfl

/-- Claim C4: get_successful_fixes_for_learning returns at most limit records,
each of which matches the substring case-insensitively and has submission
status "success" or "ok"; its reverse is a sublist of the store (so the result
is ordered most-recent-first); and on a store of three matching successful
records A, B, C with limit 2 it returns [C, B]. -/
theorem c4_recent_successful_examples (runs : List RunRecord) (s : String) (limit : Nat) :
    (EpisodicStore.get_successful_fixes_for_learning runs s limit).length ≤ limit ∧
    (∀ r, r ∈ EpisodicStore.get_successful_fixes_for_learning runs s limit →
       successStatus r = true ∧ strContains (issue_desc r.detection) (strLower s) = true) ∧
    List.Sublist (EpisodicStore.get_successful_fixes_for_learning runs s limit).reverse runs ∧
    EpisodicStore.get_successful_fixes_for_learning [recA, recB, recC] "issue" 2
      = [recC, recB] := by
  refine ⟨?_, fun r hr => ?_, ?_, by decide⟩
  · unfold EpisodicStore.get_successful_fixes_for_learning
    rw [List.length_take]
    exact min_le_left _ _
  · unfold EpisodicStore.get_successful_fixes_for_learning at hr
    have hr2 : r ∈ (EpisodicStore.get_successful_runs runs s).reverse :=
      List.mem_of_mem_take hr
    have hr3 : r ∈ EpisodicStore.get_successful_runs runs s := List.mem_reverse.1 hr2
    unfold EpisodicStore.get_successful_runs at hr3
    obtain ⟨hmem, hsucc⟩ := List.mem_filter.1 hr3
    rw [get_runs_by_issue_eq_filter] at hmem
    exact ⟨hsucc, (List.mem_filter.1 hmem).2⟩
  · unfold EpisodicStore.get_successful_fixes_for_learning
    have h1 :
        List.Sublist (((EpisodicStore.get_successful_runs runs s).reverse).take limit)
          ((EpisodicStore.get_successful_runs runs s).reverse) :=
      List.take_sublist _ _
    have h2 := h1.reverse
    rw [List.reverse_reverse] at h2
    refine h2.trans ?_
    unfold EpisodicStore.get_successful_runs
    refine (List.filter_sublist _).trans ?_
    rw [get_runs_by_issue_eq_filter]
    exact List.filter_sublist _

/-- Witness for C4: record C of the concrete store is successful and matches. -/
theorem c4_witness :
    successStatus recC = true ∧
      strContains (issue_desc recC.detection) (strLower "issue") = true :=
  (c4_recent_successful_examples [recA, recB, recC] "issue" 2).2.1 recC (by decide)

/-- Claim C5: whenever run_once terminates normally having performed a change
submission, it performed exactly one submission and exactly one episodic-store
append - whatever the submission status was - and both the returned validation
and the appended record carry passed = (status == "ok"). -/
theorem c5_submission_implies_one_append (pe : PolicyEvaluator) (run_id : String)
    (detection : Option Detection) (llm : Option LlmOutcome) (memory_context : Bool)
    (plan_id : String) (pr_info : PRInfo) (o : RunOnceOutcome)
    (hok : Agent.run_once pe run_id detection llm memory_context plan_id pr_info
      = Except.ok o)
    (hsub : 1 ≤ o.submissions) :
    o.submissions = 1 ∧ o.appended.length = 1 ∧
      o.validation = some { passed := pr_info.status == some "ok" } ∧
      ∀ r ∈ o.appended, r.validation = some { passed := pr_info.status == some "ok" } := by
  cases detection with
  | none => simp [Agent.run_once] at hok
  | some det =>
      simp only [Agent.run_once, PolicyEvaluator.apply, List.foldl, List.nil_append] at hok
      split at hok
      · exact absurd hok (by simp)
      · split at hok
        · split at hok
          · exact absurd hok (by simp)
          · split at hok
            · cases hok
              simp at hsub
            · cases hok
              simp [Agent.submitAndRecord]
        · cases hok
          simp [Agent.submitAndRecord]

/-- Witness for C5 on a concrete completed run. -/
theorem c5_witness :
    Agent.run_once {} "w5" (some detNullPtr) none false "p5" prOk = Except.ok c5Out ∧
      c5Out.submissions = 1 ∧ c5Out.appended.length = 1 ∧
      c5Out.validation = some { passed := prOk.status == some "ok" } := by
  have h := c5_submission_implies_one_append {} "w5" (some detNullPtr) none false "p5" prOk
    c5Out rfl (by decide)
  exact ⟨rfl, h.1, h.2.1, h.2.2.1⟩

/-- Claim C6 counterexample: the fallback plan does not carry a FIXED goal text;
its goal is taken from the decision, so two different decisions yield fallback
plans with different goals. -/
theorem c6_counterexample_fallback_goal_not_fixed :
    (Planner.generate none false "p" decisionA).goal = "Issue A" ∧
    (Planner.generate none false "p" decisionB).goal = "Issue B" ∧
    (Planner.generate none false "p" decisionA).goal
      ≠ (Planner.generate none false "p" decisionB).goal :=
  ⟨rfl, rfl, by decide⟩

/-- Claim C6 (amended): when the plan-generation collaborator is unavailable or
its call fails/returns unparseable output, Planner.generate returns the built-in
template plan (goal taken from the decision summary, one step,
estimated_risk_score = 30) without propagating the error; requires_hitl at the
default threshold 70 is then false, and run_once proceeds directly to submission
without invoking the Approval Gate. -/
theorem c6_fallback_plan_low_risk (llm : Option LlmOutcome) (memory_context : Bool)
    (plan_id : String) (decision : Decision)
    (h : llm = none ∨ llm = some LlmOutcome.failed) :
    (Planner.generate llm memory_context plan_id decision).estimated_risk_score
        = some (RiskVal.num 30) ∧
    (Planner.generate llm memory_context plan_id decision).goal = decision.summary ∧
    (Planner.generate llm memory_context plan_id decision).steps.length = 1 ∧
    PolicyEvaluator.requires_hitl {} (Planner.generate llm memory_context plan_id decision)
        = false ∧
    (∀ (pe : PolicyEvaluator) (run_id : String) (det : Detection) (pr_info : PRInfo),
      ∃ o, Agent.run_once pe run_id (some det) llm memory_context plan_id pr_info
          = Except.ok o ∧
        o.approval_called = none ∧ o.submissions = 1 ∧ o.appended.length = 1) := by
  rcases h with h | h <;> subst h <;>
    exact ⟨rfl, rfl, rfl, rfl, fun pe run_id det pr_info =>
      ⟨Agent.submitAndRecord run_id det
          (Planner.generate _ memory_context plan_id (mkDecision det)) pr_info none,
        rfl, rfl, rfl, rfl⟩⟩

/-- Witness for C6 on the concrete decision with summary "Issue A" and an
absent collaborator. -/
theorem c6_witness :
    (Planner.generate none false "pw" decisionA).estimated_risk_score
        = some (RiskVal.num 30) ∧
      PolicyEvaluator.requires_hitl {} (Planner.generate none false "pw" decisionA) = false :=
  ⟨(c6_fallback_plan_low_risk none false "pw" decisionA (Or.inl rfl)).1,
   (c6_fallback_plan_low_risk none false "pw" decisionA (Or.inl rfl)).2.2.2.1⟩

/-- Claim C7: get_runs_by_issue returns exactly the stored records whose
issue/description contains the substring case-insensitively, as a filter of the
store (hence in original insertion order, a sublist of the store), and the
empty substring returns the whole store. -/
theorem c7_find_by_issue (runs : List RunRecord) (s : String) :
    EpisodicStore.get_runs_by_issue runs s
        = runs.filter (fun r => strContains (issue_desc r.detection) (strLower s)) ∧
    (∀ r, r ∈ EpisodicStore.get_runs_by_issue runs s ↔
        r ∈ runs ∧ ∃ p q, (issue_desc r.detection).data = p ++ (strLower s).data ++ q) ∧
    List.Sublist (EpisodicStore.get_runs_by_issue runs s) runs ∧
    EpisodicStore.get_runs_by_issue runs "" = runs := by
  refine ⟨get_runs_by_issue_eq_filter runs s, fun r => ?_, ?_, ?_⟩
  · rw [get_runs_by_issue_eq_filter, List.mem_filter, strContains_iff]
  · rw [get_runs_by_issue_eq_filter]
    exact List.filter_sublist _
  · rw [get_runs_by_issue_eq_filter]
    exact List.filter_eq_self.2 fun r _ => strContains_empty _

/-- Witness for C7: record A is returned for the upper-case substring "ISSUE"
and its description indeed contains the lowered substring. -/
theorem c7_witness :
    recA ∈ [recA] ∧
      ∃ p q, (issue_desc recA.detection).data = p ++ (strLower "ISSUE").data ++ q :=
  ((c7_find_by_issue [recA] "ISSUE").2.1 recA).1 (by decide)

/-- Claim C8: get_issue_statistics never raises: it always returns a stats dict
whose success_rate is 0 when no record matches, and successful/total when at
least one record matches. -/
theorem c8_statistics_safe_rate (runs : List RunRecord) (s : String) :
    ∃ stats, EpisodicStore.get_issue_statistics runs s = Except.ok stats ∧
      (EpisodicStore.get_runs_by_issue runs s = [] → stats.success_rate = 0) ∧
      (EpisodicStore.get_runs_by_issue runs s ≠ [] →
        stats.success_rate
          = ((EpisodicStore.get_successful_runs runs s).length : Rat) /
              ((EpisodicStore.get_runs_by_issue runs s).length : Rat)) := by
  by_cases h : EpisodicStore.get_runs_by_issue runs s = []
  · exact ⟨⟨(EpisodicStore.get_runs_by_issue runs s).length,
            (EpisodicStore.get_successful_runs runs s).length, 0,
            mostRecentFixOf (EpisodicStore.get_successful_runs runs s)⟩,
          by simp [EpisodicStore.get_issue_statistics, h],
          fun _ => rfl, fun hne => absurd h hne⟩
  · have hlen : (EpisodicStore.get_runs_by_issue runs s).length ≠ 0 :=
      fun hz => h (List.eq_nil_of_length_eq_zero hz)
    have hie : (EpisodicStore.get_runs_by_issue runs s).isEmpty = false := by
      cases hc : (EpisodicStore.get_runs_by_issue runs s).isEmpty with
      | false => rfl
      | true => exact absurd (List.isEmpty_iff.1 hc) h
    exact ⟨⟨(EpisodicStore.get_runs_by_issue runs s).length,
            (EpisodicStore.get_successful_runs runs s).length,
            ((EpisodicStore.get_successful_runs runs s).length : Rat) /
              ((EpisodicStore.get_runs_by_issue runs s).length : Rat),
            mostRecentFixOf (EpisodicStore.get_successful_runs runs s)⟩,
          by simp [EpisodicStore.get_issue_statistics, hie, pyDiv, hlen],
          fun heq => absurd heq h, fun _ => rfl⟩

/-- Witness for C8: the empty store matches nothing and yields rate 0 with no
division error. -/
theorem c8_witness :
    ∃ stats, EpisodicStore.get_issue_statistics [] "x" = Except.ok stats ∧
      stats.success_rate = 0 := by
  obtain ⟨stats, h1, h2, _⟩ := c8_statistics_safe_rate [] "x"
  exact ⟨stats, h1, h2 rfl⟩

/-- Claim C9: apply yields exactly one decision per detection, preserving order:
the i-th decision copies the i-th detection's location, copies its score with
default 50 when absent, derives its summary from the description, and keeps the
originating detection as back-reference. -/
theorem c9_apply_one_decision_per_detection (pe : PolicyEvaluator)
    (detections : List Detection) :
    (pe.apply detections ()).length = detections.length ∧
    ∀ i : Nat, (pe.apply detections ())[i]?
        = (detections[i]?).map (fun d =>
            { summary := d.description.getD "Auto action"
              location := d.location
              score := d.score.getD 50
              detection := d }) := by
  have h : pe.apply detections ()
      = detections.map (fun d =>
          { summary := d.description.getD "Auto action"
            location := d.location
            score := d.score.getD 50
            detection := d }) := by
    unfold PolicyEvaluator.apply
    simpa using foldl_snoc_map _ detections []
  rw [h]
  exact ⟨List.length_map _ _, fun i => List.getElem?_map _ _ _⟩

/-- Claim C10: a plan lacking the estimated_risk_score key reads as score 0, so
requires_hitl is false at the default threshold 70 (and at every non-negative
threshold), and ApprovalsService.request returns granted = true: such a plan
bypasses the approval gate instead of failing safe. -/
theorem c10_missing_risk_score_bypasses_gate (plan : Plan)
    (h : plan.estimated_risk_score = none) :
    PolicyEvaluator.requires_hitl {} plan = false ∧
    (∀ T : Int, 0 ≤ T → PolicyEvaluator.requires_hitl { hitl_threshold := T } plan = false) ∧
    ApprovalsService.request plan = Except.ok { granted := true, reason := none } := by
  refine ⟨?_, fun T hT => ?_, ?_⟩ <;>
    simp [PolicyEvaluator.requires_hitl, ApprovalsService.request, pyGetRiskGt, h]
  omega

/-- Witness for C10 on the concrete plan with no risk score. -/
theorem c10_witness :
    PolicyEvaluator.requires_hitl {} planNoScore = false ∧
      ApprovalsService.request planNoScore = Except.ok { granted := true, reason := none } :=
  ⟨(c10_missing_risk_score_bypasses_gate planNoScore rfl).1,
   (c10_missing_risk_score_bypasses_gate planNoScore rfl).2.2⟩

end Agentic
